import Mathlib

/-
  Verification model of the arena-city crate: a thread-safe object pool
  (`ArenaCity<T>`, a `Mutex<Vec<T>>`) handing out scoped handles (`Citizen`)
  that return their value to the pool on drop, after a `Sanitize` step.

  Embedding choices:
  * The pool storage `Mutex<Vec<T>>` is modelled as the list of values in the
    `Vec`; the mutex only serializes access, so stateful operations become
    explicit state passing on `List`.
  * `Citizen` holds `city : Option<&ArenaCity<T>>` and
    `value : ManuallyDrop<T>`. All operations concern a single pool, so the
    back-reference is modelled by a `Bool` (present / cleared); the value
    field is kept alongside (reading it is only meaningful while the
    back-reference is present, exactly as with `ManuallyDrop`).
  * `Citizen::into_inner` calls `.expect`, which panics when the handle is
    spent; the model returns `Option` with `none` standing for the panic.
  * Rust containers (`Vec`, `HashMap`, ...) are modelled by structures
    holding their contents as lists (plus the hasher for the hashed ones,
    which `clear` preserves).
-/

universe u v

/-- The `Sanitize` trait: clean the object before putting it back into the
arena. The default method body is `Some(self)`: return the value unchanged. -/
class Sanitize (α : Type u) where
  sanitize : α → Option α := fun a => some a

/-- `ArenaCity<T>` storage: the contents of the `Mutex<Vec<T>>`, front of the
vector first (push appends at the end, pop removes from the end). -/
abbrev ArenaCity (α : Type u) : Type u := List α

/-- `ArenaCity::new`: empty storage. -/
def ArenaCity.new : ArenaCity α := []

/-- `ArenaCity::with_capacity`: capacity is only a reservation hint; the
storage starts empty. -/
def ArenaCity.with_capacity (_capacity : Nat) : ArenaCity α := []

/-- `ArenaCity::pop`: `self.0.lock().pop()` — remove and return the last
element of the vector, if any. -/
def ArenaCity.pop (st : ArenaCity α) : Option α × ArenaCity α :=
  match st.getLast? with
  | none => (none, st)
  | some v => (some v, st.dropLast)

/-- `Vec::push` under the lock, as performed by `Citizen::drop`:
append at the end. -/
def ArenaCity.push (st : ArenaCity α) (v : α) : ArenaCity α :=
  st.concat v

/-- Free function `reduce_to(vec, new_size)`:
`if vec.len() > new_size { vec.drain(new_size..); }` — when the vector is
longer than `new_size`, remove every element from index `new_size` onward,
keeping the first `new_size` elements. -/
def reduce_to (vec : List α) (new_size : Nat) : List α :=
  if new_size < vec.length then vec.take new_size else vec

/-- `Citizen<T>` (lifetime parameter elided): `city` models the
back-reference `Option<&ArenaCity<T>>` (true = `Some`), `value` the
`ManuallyDrop<T>` payload. -/
structure Citizen (α : Type u) where
  city : Bool
  value : α

/-- `Citizen::take`: clears the back-reference and moves the value out;
returns `None` when the back-reference was already cleared. The model
returns the moved-out value together with the updated handle. -/
def Citizen.take (c : Citizen α) : Option α × Citizen α :=
  match c.city with
  | true => (some c.value, ⟨false, c.value⟩)
  | false => (none, c)

/-- `Citizen::into_inner`: `self.take().expect("value").1`; `none` models
the panic on a spent handle. -/
def Citizen.into_inner (c : Citizen α) : Option α :=
  (Citizen.take c).1

/-- `impl Drop for Citizen`: if `take` yields the value, sanitize it and, if
sanitization returns a value, push it into the originating pool storage;
otherwise leave the storage unchanged. -/
def Citizen.drop [Sanitize α] (c : Citizen α) (st : ArenaCity α) : ArenaCity α :=
  match Citizen.take c with
  | (some value, _) =>
    match Sanitize.sanitize value with
    | some value => ArenaCity.push st value
    | none => st
  | (none, _) => st

/-- `ArenaCity::create`: wrap a value in a `Citizen` bound to this pool,
without touching storage. -/
def ArenaCity.create [Sanitize α] (value : α) : Citizen α :=
  ⟨true, value⟩

/-- `ArenaCity::get_or_create`: `self.pop().unwrap_or_else(init)` wrapped by
`self.create`. Returns the new handle together with the updated storage. -/
def ArenaCity.get_or_create [Sanitize α] (st : ArenaCity α) (init : Unit → α) :
    Citizen α × ArenaCity α :=
  match ArenaCity.pop st with
  | (some v, st) => (ArenaCity.create v, st)
  | (none, st) => (ArenaCity.create (init ()), st)

/-- `ArenaCity::get_or_default`: `get_or_create(T::default)`. -/
def ArenaCity.get_or_default [Sanitize α] [Inhabited α] (st : ArenaCity α) :
    Citizen α × ArenaCity α :=
  ArenaCity.get_or_create st (fun _ => default)

/-- Alias for the free `reduce_to`, needed because inside a declaration
named `ArenaCity.reduce_to` the bare identifier would resolve to the
declaration itself. -/
def reduceToAux : {α : Type u} → List α → Nat → List α := @reduce_to

/-- `ArenaCity::reduce_to` (shared access): lock, then apply the free
`reduce_to` to the vector. -/
def ArenaCity.reduce_to (st : ArenaCity α) (new_size : Nat) : ArenaCity α :=
  reduceToAux st new_size

/-- `ArenaCity::reduce_to_mut` (exclusive access): `self.0.get_mut()`
bypasses the lock, then applies the same free `reduce_to`. -/
def ArenaCity.reduce_to_mut (st : ArenaCity α) (new_size : Nat) : ArenaCity α :=
  reduceToAux st new_size

/-- `ArenaCity::clear`: `self.reduce_to(0)`. -/
def ArenaCity.clear (st : ArenaCity α) : ArenaCity α :=
  ArenaCity.reduce_to st 0

/-- `ArenaCity::clear_mut`: `self.reduce_to_mut(0)`. -/
def ArenaCity.clear_mut (st : ArenaCity α) : ArenaCity α :=
  ArenaCity.reduce_to_mut st 0

/-- `impl Sanitize for Option<T>`:
`Some(v) => v.sanitize().map(Some), None => None`. -/
instance instSanitizeOption [Sanitize α] : Sanitize (Option α) where
  sanitize o :=
    match o with
    | some v => (Sanitize.sanitize v).map some
    | none => none

/-- Model of `Vec<T>`. -/
structure Vec (α : Type u) where
  data : List α

def Vec.push (v : Vec α) (x : α) : Vec α := ⟨v.data.concat x⟩

def Vec.len (v : Vec α) : Nat := v.data.length

def Vec.clear (_v : Vec α) : Vec α := ⟨[]⟩

/-- Model of `String` contents; `clear` empties the buffer. -/
def String.clearBuf (_s : String) : String := ""

/-- Model of `std::collections::HashMap<K, V, S>`; `clear` keeps the
hasher. -/
structure HashMap (K : Type u) (V : Type u) (S : Type u) where
  hasher : S
  entries : List (K × V)

def HashMap.clear (m : HashMap K V S) : HashMap K V S := ⟨m.hasher, []⟩

/-- Model of `std::collections::BTreeMap<K, V>`. -/
structure BTreeMap (K : Type u) (V : Type u) where
  entries : List (K × V)

def BTreeMap.clear (_m : BTreeMap K V) : BTreeMap K V := ⟨[]⟩

/-- Model of `std::collections::HashSet<T, S>`; `clear` keeps the hasher. -/
structure HashSet (α : Type u) (S : Type u) where
  hasher : S
  data : List α

def HashSet.clear (s : HashSet α S) : HashSet α S := ⟨s.hasher, []⟩

/-- Model of `std::collections::BTreeSet<T>`. -/
structure BTreeSet (α : Type u) where
  data : List α

def BTreeSet.clear (_s : BTreeSet α) : BTreeSet α := ⟨[]⟩

/-- Model of `std::collections::LinkedList<T>`. -/
structure LinkedList (α : Type u) where
  data : List α

def LinkedList.clear (_l : LinkedList α) : LinkedList α := ⟨[]⟩

/-- Model of `std::collections::VecDeque<T>`. -/
structure VecDeque (α : Type u) where
  data : List α

def VecDeque.clear (_d : VecDeque α) : VecDeque α := ⟨[]⟩

/- `sanitize!(clear impl ...)` arm: `self.clear(); Some(self)` for each
container type. -/

instance instSanitizeString : Sanitize String where
  sanitize s := some (String.clearBuf s)

instance instSanitizeHashMap : Sanitize (HashMap K V S) where
  sanitize m := some (HashMap.clear m)

instance instSanitizeBTreeMap : Sanitize (BTreeMap K V) where
  sanitize m := some (BTreeMap.clear m)

instance instSanitizeHashSet : Sanitize (HashSet α S) where
  sanitize s := some (HashSet.clear s)

instance instSanitizeVec : Sanitize (Vec α) where
  sanitize v := some (Vec.clear v)

instance instSanitizeBTreeSet : Sanitize (BTreeSet α) where
  sanitize s := some (BTreeSet.clear s)

instance instSanitizeLinkedList : Sanitize (LinkedList α) where
  sanitize l := some (LinkedList.clear l)

instance instSanitizeVecDeque : Sanitize (VecDeque α) where
  sanitize d := some (VecDeque.clear d)

/- `sanitize!(($a: $t),+)` arm for tuples of arity 1..6:
`Some((self.0.sanitize()?, self.1.sanitize()?, ...))` — each component is
sanitized left to right with the `?` operator short-circuiting on `None`.
The functions below take the component sanitizers as explicit arguments
(the `$a: Sanitize` bounds of the generated impl). -/

def sanitize1 {A : Type u} (fa : A → Option A) (t : A) : Option A := do
  let a ← fa t
  some a

def sanitize2 {A B : Type u} (fa : A → Option A) (fb : B → Option B)
    (t : A × B) : Option (A × B) := do
  let a ← fa t.1
  let b ← fb t.2
  some (a, b)

def sanitize3 {A B C : Type u} (fa : A → Option A) (fb : B → Option B)
    (fc : C → Option C) (t : A × B × C) : Option (A × B × C) := do
  let a ← fa t.1
  let b ← fb t.2.1
  let c ← fc t.2.2
  some (a, b, c)

def sanitize4 {A B C D : Type u} (fa : A → Option A) (fb : B → Option B)
    (fc : C → Option C) (fd : D → Option D) (t : A × B × C × D) :
    Option (A × B × C × D) := do
  let a ← fa t.1
  let b ← fb t.2.1
  let c ← fc t.2.2.1
  let d ← fd t.2.2.2
  some (a, b, c, d)

def sanitize5 {A B C D E : Type u} (fa : A → Option A) (fb : B → Option B)
    (fc : C → Option C) (fd : D → Option D) (fe : E → Option E)
    (t : A × B × C × D × E) : Option (A × B × C × D × E) := do
  let a ← fa t.1
  let b ← fb t.2.1
  let c ← fc t.2.2.1
  let d ← fd t.2.2.2.1
  let e ← fe t.2.2.2.2
  some (a, b, c, d, e)

def sanitize6 {A B C D E F : Type u} (fa : A → Option A) (fb : B → Option B)
    (fc : C → Option C) (fd : D → Option D) (fe : E → Option E)
    (ff : F → Option F) (t : A × B × C × D × E × F) :
    Option (A × B × C × D × E × F) := do
  let a ← fa t.1
  let b ← fb t.2.1
  let c ← fc t.2.2.1
  let d ← fd t.2.2.2.1
  let e ← fe t.2.2.2.2.1
  let f ← ff t.2.2.2.2.2
  some (a, b, c, d, e, f)

/-- The pair instance generated by `sanitize!((A:0, B:1))`. -/
instance instSanitizeProd [Sanitize A] [Sanitize B] : Sanitize (A × B) where
  sanitize := sanitize2 Sanitize.sanitize Sanitize.sanitize

/-- An arbitrary user type opting into `Sanitize` with the default method
body (identity), as the crate permits for any type. -/
instance instSanitizeNat : Sanitize Nat := {}

/- Helper lemmas shared by the claim theorems. -/

theorem pop_concat (st : List α) (v : α) :
    ArenaCity.pop (st ++ [v]) = (some v, st) := by
  simp [ArenaCity.pop]

theorem drop_create_eq [Sanitize α] (v : α) (st : ArenaCity α) :
    Citizen.drop (ArenaCity.create v) st =
      match Sanitize.sanitize v with
      | some w => st.concat w
      | none => st := by
  simp [Citizen.drop, ArenaCity.create, Citizen.take, ArenaCity.push]

theorem drop_create_some [Sanitize α] (v w : α) (st : ArenaCity α)
    (h : Sanitize.sanitize v = some w) :
    Citizen.drop (ArenaCity.create v) st = st.concat w := by
  rw [drop_create_eq, h]

theorem drop_create_none [Sanitize α] (v : α) (st : ArenaCity α)
    (h : Sanitize.sanitize v = none) :
    Citizen.drop (ArenaCity.create v) st = st := by
  rw [drop_create_eq, h]

theorem get_or_create_concat [Sanitize α] (st : ArenaCity α) (v : α)
    (init : Unit → α) :
    ArenaCity.get_or_create (st.concat v) init = (ArenaCity.create v, st) := by
  simp [ArenaCity.get_or_create, List.concat_eq_append, pop_concat]

theorem get_or_create_nil [Sanitize α] (init : Unit → α) :
    ArenaCity.get_or_create ([] : ArenaCity α) init =
      (ArenaCity.create (init ()), []) := by
  simp [ArenaCity.get_or_create, ArenaCity.pop]

/-- Claim C1: for a type whose sanitize rule is the default identity,
releasing a handle wrapping value `v` (possibly mutated, hence `v` is
arbitrary) into a pool and then calling `get_or_create` returns a handle
wrapping exactly `v`, restores the previous storage, and the result does
not depend on the supplied initializer (it is never invoked). -/
theorem c1_reuse_after_release {α : Type} [Sanitize α]
    (hid : ∀ a : α, Sanitize.sanitize a = some a)
    (st : ArenaCity α) (v : α) (init : Unit → α) :
    (ArenaCity.get_or_create (Citizen.drop (ArenaCity.create v) st) init).1.value = v ∧
    (ArenaCity.get_or_create (Citizen.drop (ArenaCity.create v) st) init).2 = st ∧
    ∀ init2 : Unit → α,
      ArenaCity.get_or_create (Citizen.drop (ArenaCity.create v) st) init2 =
        ArenaCity.get_or_create (Citizen.drop (ArenaCity.create v) st) init := by
  have hd : Citizen.drop (ArenaCity.create v) st = st.concat v :=
    drop_create_some v v st (hid v)
  refine ⟨?_, ?_, ?_⟩
  · rw [hd, get_or_create_concat]
    rfl
  · rw [hd, get_or_create_concat]
  · intro init2
    rw [hd, get_or_create_concat, get_or_create_concat]

/-- Witness for C1 at a concrete pool of naturals. -/
theorem c1_witness :
    (ArenaCity.get_or_create (Citizen.drop (ArenaCity.create 7) [1, 2])
      (fun _ => (0 : Nat))).1.value = 7 ∧
    (ArenaCity.get_or_create (Citizen.drop (ArenaCity.create 7) [1, 2])
      (fun _ => (0 : Nat))).2 = [1, 2] :=
  ⟨(c1_reuse_after_release (fun _ => rfl) [1, 2] 7 (fun _ => 0)).1,
   (c1_reuse_after_release (fun _ => rfl) [1, 2] 7 (fun _ => 0)).2.1⟩

/-- Claim C2: LIFO reuse. Acquire three values `a`, `b`, `c` from an empty
pool (via initializers), release them in order `a`, `b`, `c`; the next three
`get_or_create` calls yield `c`, `b`, `a` in that order, end with empty
storage, and none of them depends on its initializer. -/
theorem c2_lifo_reuse {α : Type} [Sanitize α]
    (hid : ∀ x : α, Sanitize.sanitize x = some x)
    (a b c : α) (i1 i2 i3 : Unit → α)
    (st : ArenaCity α)
    (hst : st = Citizen.drop (ArenaCity.get_or_create [] (fun _ => c)).1
        (Citizen.drop (ArenaCity.get_or_create [] (fun _ => b)).1
          (Citizen.drop (ArenaCity.get_or_create [] (fun _ => a)).1 [])))
    (r1 : Citizen α × ArenaCity α) (h1 : r1 = ArenaCity.get_or_create st i1)
    (r2 : Citizen α × ArenaCity α) (h2 : r2 = ArenaCity.get_or_create r1.2 i2)
    (r3 : Citizen α × ArenaCity α) (h3 : r3 = ArenaCity.get_or_create r2.2 i3) :
    r1.1.value = c ∧ r2.1.value = b ∧ r3.1.value = a ∧ r3.2 = [] ∧
    ∀ j1 j2 j3 : Unit → α,
      ArenaCity.get_or_create st j1 = r1 ∧
      ArenaCity.get_or_create r1.2 j2 = r2 ∧
      ArenaCity.get_or_create r2.2 j3 = r3 := by
  have hs : st = [a, b, c] := by
    rw [hst, get_or_create_nil, get_or_create_nil, get_or_create_nil]
    rw [drop_create_some a a [] (hid a)]
    rw [drop_create_some b b ([].concat a) (hid b)]
    rw [drop_create_some c c (([].concat a).concat b) (hid c)]
    rfl
  have e1 : ∀ j : Unit → α, ArenaCity.get_or_create st j =
      (ArenaCity.create c, [a, b]) := by
    intro j
    rw [hs]
    exact get_or_create_concat [a, b] c j
  have e2 : ∀ j : Unit → α, ArenaCity.get_or_create r1.2 j =
      (ArenaCity.create b, [a]) := by
    intro j
    rw [h1, e1 i1]
    exact get_or_create_concat [a] b j
  have e3 : ∀ j : Unit → α, ArenaCity.get_or_create r2.2 j =
      (ArenaCity.create a, []) := by
    intro j
    rw [h2, e2 i2]
    exact get_or_create_concat [] a j
  refine ⟨?_, ?_, ?_, ?_, ?_⟩
  · rw [h1, e1 i1]
    rfl
  · rw [h2, e2 i2]
    rfl
  · rw [h3, e3 i3]
    rfl
  · rw [h3, e3 i3]
  · intro j1 j2 j3
    exact ⟨by rw [e1 j1, h1, e1 i1], by rw [e2 j2, h2, e2 i2],
      by rw [e3 j3, h3, e3 i3]⟩

/-- Witness for C2 at concrete natural values 1, 2, 3. -/
theorem c2_witness :
    (ArenaCity.get_or_create
      (ArenaCity.get_or_create
        (ArenaCity.get_or_create
          (Citizen.drop (ArenaCity.get_or_create [] (fun _ => 3)).1
            (Citizen.drop (ArenaCity.get_or_create [] (fun _ => 2)).1
              (Citizen.drop (ArenaCity.get_or_create [] (fun _ => (1 : Nat))).1 [])))
          (fun _ => 0)).2
        (fun _ => 0)).2
      (fun _ => 0)).1.value = 1 :=
  (c2_lifo_reuse (fun _ => rfl) 1 2 3 (fun _ => 0) (fun _ => 0) (fun _ => 0)
    _ rfl _ rfl _ rfl _ rfl).2.2.1

/-- Claim C5: discard semantics. If the sanitize rule signals discard for
`v`, releasing a handle wrapping `v` leaves the storage exactly unchanged,
and a `get_or_create` on an empty pool invokes the initializer: the handle
wraps `init ()` and the storage stays empty. -/
theorem c5_discard_semantics {α : Type} [Sanitize α]
    (v : α) (st : ArenaCity α) (init : Unit → α)
    (hdisc : Sanitize.sanitize v = none) :
    Citizen.drop (ArenaCity.create v) st = st ∧
    (ArenaCity.get_or_create ([] : ArenaCity α) init).1.value = init () ∧
    (ArenaCity.get_or_create ([] : ArenaCity α) init).2 = [] := by
  refine ⟨drop_create_none v st hdisc, ?_, ?_⟩
  · rw [get_or_create_nil]
    rfl
  · rw [get_or_create_nil]

/-- Witness for C5: the `Option` sanitize rule discards `none`, so releasing
a handle wrapping `none : Option Nat` leaves the storage unchanged. -/
theorem c5_witness :
    Citizen.drop (ArenaCity.create (none : Option Nat)) [some 1] = [some 1] ∧
    (ArenaCity.get_or_create ([] : ArenaCity (Option Nat))
      (fun _ => some 5)).1.value = some 5 :=
  ⟨(c5_discard_semantics (none : Option Nat) [some 1] (fun _ => some 5) rfl).1,
   (c5_discard_semantics (none : Option Nat) [some 1] (fun _ => some 5) rfl).2.1⟩

/-- Claim C6: at most one terminal transition. On an active handle,
`into_inner` yields the wrapped value; the handle left behind by `take` is
spent (back-reference cleared), dropping it pushes nothing into the storage,
and neither `take` nor `into_inner` can yield the value again. -/
theorem c6_single_terminal_transition {α : Type} [Sanitize α]
    (c : Citizen α) (st : ArenaCity α) (hact : c.city = true) :
    Citizen.into_inner c = some c.value ∧
    (Citizen.take c).2.city = false ∧
    Citizen.drop (Citizen.take c).2 st = st ∧
    Citizen.take (Citizen.take c).2 = (none, (Citizen.take c).2) ∧
    Citizen.into_inner (Citizen.take c).2 = none := by
  refine ⟨?_, ?_, ?_, ?_, ?_⟩ <;>
    simp [Citizen.into_inner, Citizen.take, Citizen.drop, hact]

/-- Witness for C6 at a concrete active handle over naturals. -/
theorem c6_witness :
    Citizen.into_inner (Citizen.mk true (5 : Nat)) = some 5 ∧
    Citizen.drop (Citizen.take (Citizen.mk true (5 : Nat))).2 [1, 2] = [1, 2] :=
  ⟨(c6_single_terminal_transition (Citizen.mk true 5) [1, 2] rfl).1,
   (c6_single_terminal_transition (Citizen.mk true 5) [1, 2] rfl).2.2.1⟩

/-- Counterexample to claim C3 as stated: sanitizing the absent value
`none` does not yield the value unchanged for reuse; the `Option` rule maps
`None => None`, signalling discard. -/
theorem c3_counterexample :
    Sanitize.sanitize (none : Option Nat) ≠ some (none : Option Nat) :=
  fun h => nomatch h

/-- Claim C3 (amended): sanitizing `some v` yields `some (some w)` when the
inner rule yields `w` and discards when the inner rule discards; sanitizing
the absent value `none` also signals discard (it is not returned for
reuse). -/
theorem c3_option_sanitize_rule {α : Type} [Sanitize α] (v w : α) :
    (Sanitize.sanitize v = some w →
      Sanitize.sanitize (some v : Option α) = some (some w)) ∧
    (Sanitize.sanitize v = none →
      Sanitize.sanitize (some v : Option α) = none) ∧
    Sanitize.sanitize (none : Option α) = none := by
  have ev : Sanitize.sanitize (some v : Option α) =
      (Sanitize.sanitize v).map some := rfl
  refine ⟨fun h => ?_, fun h => ?_, rfl⟩ <;> rw [ev, h] <;> rfl

/-- Witness for C3 (amended): the inner-yield case at `Nat` (default
identity rule), the inner-discard case at `Option Nat`, and the `none`
case. -/
theorem c3_witness :
    Sanitize.sanitize (some (3 : Nat)) = some (some 3) ∧
    Sanitize.sanitize (some (none : Option Nat)) = none ∧
    Sanitize.sanitize (none : Option Nat) = none :=
  ⟨(c3_option_sanitize_rule (3 : Nat) 3).1 rfl,
   (c3_option_sanitize_rule (none : Option Nat) none).2.1 rfl,
   (c3_option_sanitize_rule (0 : Nat) 0).2.2⟩

/-- Counterexample to claim C4 as stated: releasing 1, 2, 3, 4, 5 in that
order into an empty pool (so 5 is the most recently released) and then
truncating to 2 retains the two earliest-released values 1 and 2; the two
most-recently-released values 4 and 5 are dropped. -/
theorem c4_counterexample :
    ArenaCity.reduce_to
      (Citizen.drop (ArenaCity.create 5)
        (Citizen.drop (ArenaCity.create 4)
          (Citizen.drop (ArenaCity.create 3)
            (Citizen.drop (ArenaCity.create 2)
              (Citizen.drop (ArenaCity.create (1 : Nat)) []))))) 2 = [1, 2] ∧
    (5 : Nat) ∉ ArenaCity.reduce_to
      (Citizen.drop (ArenaCity.create 5)
        (Citizen.drop (ArenaCity.create 4)
          (Citizen.drop (ArenaCity.create 3)
            (Citizen.drop (ArenaCity.create 2)
              (Citizen.drop (ArenaCity.create (1 : Nat)) []))))) 2 ∧
    (4 : Nat) ∉ ArenaCity.reduce_to
      (Citizen.drop (ArenaCity.create 5)
        (Citizen.drop (ArenaCity.create 4)
          (Citizen.drop (ArenaCity.create 3)
            (Citizen.drop (ArenaCity.create 2)
              (Citizen.drop (ArenaCity.create (1 : Nat)) []))))) 2 := by
  refine ⟨rfl, ?_, ?_⟩ <;> decide

/-- Claim C4 (amended): with 5 released values in storage, truncating to 2
leaves exactly 2 elements: the 2 earliest-released ones (the first 2 in
push order; the prefix is preserved). The dropped elements are gone from
storage, and every subsequent `get_or_create` either hands out a value
still in storage (while removing it) or a freshly initialized one, so a
dropped value is never returned. -/
theorem c4_truncate_keeps_first {α : Type} [Sanitize α]
    (st : ArenaCity α) (h5 : st.length = 5) :
    ArenaCity.reduce_to st 2 = st.take 2 ∧
    (ArenaCity.reduce_to st 2).length = 2 ∧
    (∀ x, x ∈ ArenaCity.reduce_to st 2 → x ∈ st.take 2) ∧
    (∀ (st2 : ArenaCity α) (init : Unit → α),
      ((ArenaCity.get_or_create st2 init).1.value ∈ st2 ∨
        (ArenaCity.get_or_create st2 init).1.value = init ()) ∧
      ((ArenaCity.get_or_create st2 init).2 = st2.dropLast ∨
        (ArenaCity.get_or_create st2 init).2 = st2)) := by
  have hr : ArenaCity.reduce_to st 2 = st.take 2 := by
    have : 2 < st.length := by omega
    simp [ArenaCity.reduce_to, reduceToAux, reduce_to, this]
  refine ⟨hr, ?_, ?_, ?_⟩
  · rw [hr]
    simp [h5]
  · intro x hx
    rwa [hr] at hx
  · intro st2 init
    unfold ArenaCity.get_or_create ArenaCity.pop
    cases hg : st2.getLast? with
    | none => exact ⟨Or.inr rfl, Or.inr rfl⟩
    | some v =>
      exact ⟨Or.inl (List.mem_of_mem_getLast? hg), Or.inl rfl⟩

/-- Witness for C4 (amended) at the concrete storage `[1, 2, 3, 4, 5]`. -/
theorem c4_witness :
    ArenaCity.reduce_to [1, 2, 3, 4, 5] 2 = [(1 : Nat), 2] ∧
    (ArenaCity.reduce_to [(1 : Nat), 2, 3, 4, 5] 2).length = 2 :=
  ⟨by
    have h := (c4_truncate_keeps_first [(1 : Nat), 2, 3, 4, 5] rfl).1
    simpa using h,
   (c4_truncate_keeps_first [(1 : Nat), 2, 3, 4, 5] rfl).2.1⟩

/-- Claim C7: every built-in container sanitize rule clears all contents and
returns the now-empty container (never discard); for the hashed containers
the hasher is preserved. Moreover a pooled `Vec Nat` into which 10 was
pushed comes back empty (length 0) on the next acquisition. -/
theorem c7_container_sanitize :
    (∀ s : String, Sanitize.sanitize s = some "") ∧
    (∀ (K V S : Type) (m : HashMap K V S),
      Sanitize.sanitize m = some (HashMap.mk m.hasher [])) ∧
    (∀ (K V : Type) (m : BTreeMap K V),
      Sanitize.sanitize m = some (BTreeMap.mk [])) ∧
    (∀ (A S : Type) (s : HashSet A S),
      Sanitize.sanitize s = some (HashSet.mk s.hasher [])) ∧
    (∀ (A : Type) (v : Vec A), Sanitize.sanitize v = some (Vec.mk [])) ∧
    (∀ (A : Type) (s : BTreeSet A),
      Sanitize.sanitize s = some (BTreeSet.mk [])) ∧
    (∀ (A : Type) (l : LinkedList A),
      Sanitize.sanitize l = some (LinkedList.mk [])) ∧
    (∀ (A : Type) (d : VecDeque A),
      Sanitize.sanitize d = some (VecDeque.mk [])) ∧
    (∀ init : Unit → Vec Nat,
      Vec.len ((ArenaCity.get_or_create
        (Citizen.drop (ArenaCity.create (Vec.push (Vec.mk []) 10)) [])
        init).1.value) = 0) :=
  ⟨fun _ => rfl, fun _ _ _ _ => rfl, fun _ _ _ => rfl, fun _ _ _ => rfl,
   fun _ _ => rfl, fun _ _ => rfl, fun _ _ => rfl, fun _ _ => rfl,
   fun _ => rfl⟩

/-- Claim C10: `reduce_to_mut` agrees with `reduce_to` on every storage and
size; `clear` and `clear_mut` agree with truncation to 0, which empties the
storage; and each operation leaves the storage unchanged when its target
size is at least the current length. -/
theorem c10_truncation_variants {α : Type} (st : ArenaCity α) (n : Nat) :
    ArenaCity.reduce_to_mut st n = ArenaCity.reduce_to st n ∧
    ArenaCity.clear st = ArenaCity.reduce_to st 0 ∧
    ArenaCity.clear_mut st = ArenaCity.reduce_to_mut st 0 ∧
    ArenaCity.reduce_to st 0 = [] ∧
    (st.length ≤ n →
      ArenaCity.reduce_to st n = st ∧ ArenaCity.reduce_to_mut st n = st) ∧
    (st.length ≤ 0 →
      ArenaCity.clear st = st ∧ ArenaCity.clear_mut st = st) := by
  refine ⟨rfl, rfl, rfl, ?_, fun h => ⟨?_, ?_⟩, fun h => ⟨?_, ?_⟩⟩
  · cases st with
    | nil => rfl
    | cons x xs => simp [ArenaCity.reduce_to, reduceToAux, reduce_to]
  · simp [ArenaCity.reduce_to, reduceToAux, reduce_to, Nat.not_lt.mpr h]
  · simp [ArenaCity.reduce_to_mut, reduceToAux, reduce_to, Nat.not_lt.mpr h]
  · simp [ArenaCity.clear, ArenaCity.reduce_to, reduceToAux, reduce_to,
      Nat.not_lt.mpr h]
  · simp [ArenaCity.clear_mut, ArenaCity.reduce_to_mut, reduceToAux,
      reduce_to, Nat.not_lt.mpr h]

/-- Witness for C10 at concrete storages. -/
theorem c10_witness :
    ArenaCity.reduce_to_mut [1, 2, 3] 2 = ArenaCity.reduce_to [(1 : Nat), 2, 3] 2 ∧
    ArenaCity.reduce_to [(1 : Nat), 2, 3] 5 = [1, 2, 3] ∧
    ArenaCity.clear ([] : ArenaCity Nat) = [] :=
  ⟨(c10_truncation_variants [(1 : Nat), 2, 3] 2).1,
   ((c10_truncation_variants [(1 : Nat), 2, 3] 5).2.2.2.2.1 (by decide)).1,
   ((c10_truncation_variants ([] : ArenaCity Nat) 0).2.2.2.2.2 (by decide)).1⟩

/-- Claim C8: for tuples of up to six sanitizable components, the generated
sanitize rule visits the components left to right: if every component
yields a value, the result is the tuple of the sanitized components; if a
component signals discard the whole tuple is discarded, whatever the
sanitizers of the components to its right do (they are never consulted, as
the conclusion holds for every choice of those sanitizers). -/
theorem c8_tuple_sanitize {A B C D E F : Type}
    (fa : A → Option A) (fb : B → Option B) (fc : C → Option C)
    (fd : D → Option D) (fe : E → Option E) (ff : F → Option F)
    (a : A) (b : B) (c : C) (d : D) (e : E) (f : F)
    (a' : A) (b' : B) (c' : C) (d' : D) (e' : E) (f' : F) :
    ((fa a = some a' → sanitize1 fa a = some a') ∧
     (fa a = none → sanitize1 fa a = none)) ∧
    ((fa a = some a' → fb b = some b' →
        sanitize2 fa fb (a, b) = some (a', b')) ∧
     (fa a = none → sanitize2 fa fb (a, b) = none) ∧
     (fb b = none → sanitize2 fa fb (a, b) = none)) ∧
    ((fa a = some a' → fb b = some b' → fc c = some c' →
        sanitize3 fa fb fc (a, b, c) = some (a', b', c')) ∧
     (fa a = none → sanitize3 fa fb fc (a, b, c) = none) ∧
     (fb b = none → sanitize3 fa fb fc (a, b, c) = none) ∧
     (fc c = none → sanitize3 fa fb fc (a, b, c) = none)) ∧
    ((fa a = some a' → fb b = some b' → fc c = some c' → fd d = some d' →
        sanitize4 fa fb fc fd (a, b, c, d) = some (a', b', c', d')) ∧
     (fa a = none → sanitize4 fa fb fc fd (a, b, c, d) = none) ∧
     (fb b = none → sanitize4 fa fb fc fd (a, b, c, d) = none) ∧
     (fc c = none → sanitize4 fa fb fc fd (a, b, c, d) = none) ∧
     (fd d = none → sanitize4 fa fb fc fd (a, b, c, d) = none)) ∧
    ((fa a = some a' → fb b = some b' → fc c = some c' → fd d = some d' →
        fe e = some e' →
        sanitize5 fa fb fc fd fe (a, b, c, d, e) = some (a', b', c', d', e')) ∧
     (fa a = none → sanitize5 fa fb fc fd fe (a, b, c, d, e) = none) ∧
     (fb b = none → sanitize5 fa fb fc fd fe (a, b, c, d, e) = none) ∧
     (fc c = none → sanitize5 fa fb fc fd fe (a, b, c, d, e) = none) ∧
     (fd d = none → sanitize5 fa fb fc fd fe (a, b, c, d, e) = none) ∧
     (fe e = none → sanitize5 fa fb fc fd fe (a, b, c, d, e) = none)) ∧
    ((fa a = some a' → fb b = some b' → fc c = some c' → fd d = some d' →
        fe e = some e' → ff f = some f' →
        sanitize6 fa fb fc fd fe ff (a, b, c, d, e, f) =
          some (a', b', c', d', e', f')) ∧
     (fa a = none → sanitize6 fa fb fc fd fe ff (a, b, c, d, e, f) = none) ∧
     (fb b = none → sanitize6 fa fb fc fd fe ff (a, b, c, d, e, f) = none) ∧
     (fc c = none → sanitize6 fa fb fc fd fe ff (a, b, c, d, e, f) = none) ∧
     (fd d = none → sanitize6 fa fb fc fd fe ff (a, b, c, d, e, f) = none) ∧
     (fe e = none → sanitize6 fa fb fc fd fe ff (a, b, c, d, e, f) = none) ∧
     (ff f = none → sanitize6 fa fb fc fd fe ff (a, b, c, d, e, f) = none)) := by
  refine ⟨⟨?_, ?_⟩, ⟨?_, ?_, ?_⟩, ⟨?_, ?_, ?_, ?_⟩, ⟨?_, ?_, ?_, ?_, ?_⟩,
    ⟨?_, ?_, ?_, ?_, ?_, ?_⟩, ⟨?_, ?_, ?_, ?_, ?_, ?_, ?_⟩⟩ <;>
    intros <;>
    simp_all [sanitize1, sanitize2, sanitize3, sanitize4, sanitize5,
      sanitize6]

/-- Witness for C8: the all-yield case at arity 2 and a first-component
discard at arity 6, at concrete naturals. -/
theorem c8_witness :
    sanitize2 (fun n : Nat => some n) (fun n : Nat => some n) (1, 2) =
      some (1, 2) ∧
    sanitize6 (fun _ : Nat => none) (fun n : Nat => some n)
      (fun n : Nat => some n) (fun n : Nat => some n) (fun n : Nat => some n)
      (fun n : Nat => some n) (1, 2, 3, 4, 5, 6) = none :=
  ⟨(c8_tuple_sanitize (fun n : Nat => some n) (fun n : Nat => some n)
      (fun n : Nat => some n) (fun n : Nat => some n) (fun n : Nat => some n)
      (fun n : Nat => some n) 1 2 3 4 5 6 1 2 3 4 5 6).2.1.1 rfl rfl,
   (c8_tuple_sanitize (fun _ : Nat => none) (fun n : Nat => some n)
      (fun n : Nat => some n) (fun n : Nat => some n) (fun n : Nat => some n)
      (fun n : Nat => some n) 1 2 3 4 5 6 1 2 3 4 5 6).2.2.2.2.2.2.1 rfl⟩
